import Mathlib

/-!
# Verification of the cargo-wdk CLI layer and build/package orchestration

Shallow embedding of `crates/cargo-wdk` (CLI argument parsing, default
target-architecture detection, and the build-and-package orchestration
described by the project specification), together with theorems settling
the specification's claims.
-/

set_option maxHeartbeats 1000000

deriving instance DecidableEq for Except

namespace CargoWdk

/-- Substring relation on strings, via their character lists. -/
def strContains (haystack needle : String) : Prop :=
  needle.data <:+: haystack.data

instance (h n : String) : Decidable (strContains h n) :=
  inferInstanceAs (Decidable (n.data <:+: h.data))

theorem strContains_self (s : String) : strContains s s :=
  ⟨[], [], by simp⟩

theorem strContains_append_left {a x : String} (b : String) (h : strContains a x) :
    strContains (b ++ a) x := by
  obtain ⟨s, t, hst⟩ := h
  exact ⟨b.data ++ s, t, by rw [String.data_append, ← hst]; simp [List.append_assoc]⟩

theorem strContains_append_right {a x : String} (b : String) (h : strContains a x) :
    strContains (a ++ b) x := by
  obtain ⟨s, t, hst⟩ := h
  exact ⟨s, t ++ b.data, by rw [String.data_append, ← hst]; simp [List.append_assoc]⟩

theorem strContains_of_data_seg {a x : String} (h : x.data <:+: a.data) :
    strContains a x := h

/-! ## CPU architecture and target-architecture selection (`cli.rs`) -/

/-- `wdk_build::CpuArchitecture`, as used by `cargo-wdk`. -/
inductive CpuArchitecture where
  | Amd64
  | Arm64
  deriving DecidableEq, Repr

/-- `crate::actions::TargetArch`: an architecture either explicitly selected
by the user or detected as the host default. -/
inductive TargetArch where
  | Selected (arch : CpuArchitecture)
  | Default (arch : CpuArchitecture)
  deriving DecidableEq, Repr

/-- `crate::providers::error::CommandError`, the failure of an external
command invocation, as exercised by the tests of
`detect_default_target_arch_using_rustc`: the `CommandFailed` variant
carries the program, its arguments and the captured stdout. -/
structure CommandError where
  command : String
  args : List String
  stdout : String
  deriving DecidableEq, Repr

/-- Modelled from the spec: the `Display` rendering of
`CommandError::CommandFailed` (the provider source is outside the embedded
files; the rendering is fixed by the assertion in the unit test
`given_rustc_command_fails_when_detect_default_arch_from_rustc_is_called_then_it_returns_error`):
`Command '<cmd>' with args [<args>] failed \n STDOUT: <stdout>`. -/
def CommandError.toMessage (e : CommandError) : String :=
  "Command '" ++ e.command ++ "' with args ["
    ++ String.intercalate ", " (e.args.map (fun a => "\"" ++ a ++ "\""))
    ++ "] failed \n STDOUT: " ++ e.stdout

/-- Result of the command-execution provider's `run` for
`rustc --print host-tuple`: either a `CommandError` or captured stdout
(already decoded from bytes, mirroring `String::from_utf8_lossy`). -/
def RustcRunResult : Type := Except CommandError String

/-- Rust's `str::trim`: the string with leading and trailing whitespace
removed, computed over the character list. -/
def rustTrim (s : String) : String :=
  ⟨(((s.data.dropWhile Char.isWhitespace).reverse.dropWhile Char.isWhitespace).reverse)⟩

/-- `Cli::detect_default_target_arch_using_rustc` (`cli.rs` lines 197-219),
as a function of the outcome of the `rustc --print host-tuple` invocation:
on command failure it reports `Unable to read rustc host tuple: ...`; on
success it trims stdout and maps exactly the two recognized host triples,
reporting an unsupported-target error (embedding the untrimmed stdout and
suggesting `--target-arch`) for anything else. -/
def detect_default_target_arch_using_rustc (runResult : RustcRunResult) :
    Except String CpuArchitecture :=
  match runResult with
  | .error e => .error ("Unable to read rustc host tuple: " ++ e.toMessage)
  | .ok stdout =>
    if rustTrim stdout = "x86_64-pc-windows-msvc" then .ok CpuArchitecture.Amd64
    else if rustTrim stdout = "aarch64-pc-windows-msvc" then .ok CpuArchitecture.Arm64
    else .error ("Unsupported default target: " ++ stdout
        ++ ". Only x86_64-pc-windows-msvc and aarch64-pc-windows-msvc are supported.\n"
        ++ " If you're on Windows, consider using the --target-arch option to specify a "
        ++ "supported architecture.")

/-- The target-architecture resolution step of the `Build` branch of
`Cli::run` (`cli.rs` lines 158-166): when the user passed `--target-arch`
the architecture is wrapped in `TargetArch::Selected` without running
`rustc`; otherwise `rustc --print host-tuple` is consulted and the detected
architecture is wrapped in `TargetArch::Default`. The second component
records whether the host-triple query was invoked. -/
def resolveTargetArch (explicitArch : Option CpuArchitecture)
    (rustcRun : RustcRunResult) : Except String TargetArch × Bool :=
  match explicitArch with
  | some arch => (.ok (TargetArch.Selected arch), false)
  | none =>
    ((detect_default_target_arch_using_rustc rustcRun).map TargetArch.Default, true)

/-! ## CLI argument types (`cli/args.rs`) -/

/-- `InvalidDriverProjectNameError`, the reasons a driver project name is
rejected. Modelled from the spec: the CLI layer's error enum lives in a
file not among the embedded sources; its variants are fixed by their
construction sites in `cli/args.rs`. -/
inductive InvalidDriverProjectNameError where
  | EmptyProjectNameError
  | NonAlphanumericProjectNameError
  | InvalidStartCharacter
  | ReservedName (name : String)
  deriving DecidableEq, Repr

/-- `NewProjectArgsError`. Modelled from the spec: the CLI layer's error
enum lives in a file not among the embedded sources; the two variants used
by `cli/args.rs` carry the offending input string. -/
inductive NewProjectArgsError where
  | InvalidDriverProjectNameError (name : String) (err : InvalidDriverProjectNameError)
  | InvalidDriverTypeError (name : String)
  deriving DecidableEq, Repr

/-- Outcome of a Rust `FromStr::from_str` call, with an explicit
constructor for a panic (`expect`) so that panic-freedom is provable. -/
inductive FromStrResult (ε α : Type) where
  | ok (val : α)
  | err (e : ε)
  | panicked (msg : String)
  deriving DecidableEq, Repr

/-- Rust's `char::is_alphanumeric`, on the ASCII range. -/
def rustIsAlphanumeric (c : Char) : Bool := c.isAlphanum

/-- Rust's `char::is_alphabetic`, on the ASCII range. -/
def rustIsAlphabetic (c : Char) : Bool := c.isAlpha

/-- Rust's `str::to_lowercase`, character by character. -/
def rustToLowercase (s : String) : String := ⟨s.data.map Char.toLower⟩

/-- The reserved names rejected by `ProjectNameArg::from_str`
(`cli/args.rs` line 43). -/
def reservedProjectNames : List String :=
  ["crate", "self", "super", "extern", "_", "-", "new", "build"]

/-- `ProjectNameArg::from_str` (`cli/args.rs` lines 16-51): rejects the
empty string, any non-alphanumeric character other than `-` and `_`, a
non-alphabetic first character (reading the first character through an
`expect` that would panic on an empty string), and the reserved names;
otherwise wraps the string. -/
def ProjectNameArg.from_str (s : String) :
    FromStrResult NewProjectArgsError String :=
  if s.data.isEmpty then
    .err (.InvalidDriverProjectNameError s .EmptyProjectNameError)
  else if ¬ (s.data.all fun c => rustIsAlphanumeric c || c == '-' || c == '_') then
    .err (.InvalidDriverProjectNameError s .NonAlphanumericProjectNameError)
  else
    match s.data.head? with
    | none => .panicked "Project name cannot be empty"
    | some c =>
      if ¬ rustIsAlphabetic c then
        .err (.InvalidDriverProjectNameError s .InvalidStartCharacter)
      else if reservedProjectNames.contains s then
        .err (.InvalidDriverProjectNameError s (.ReservedName s))
      else
        .ok s

/-- `DriverTypeArg` (`cli/args.rs`). -/
inductive DriverTypeArg where
  | Kmdf
  | Umdf
  | Wdm
  deriving DecidableEq, Repr

/-- `DriverTypeArg::from_str` (`cli/args.rs` lines 75-82): matches the
lowercased input against the three driver-type names; any other input is
an `InvalidDriverTypeError` carrying the original string (the production
code renders it with `to_string`, whose `Display` lives outside the
embedded sources; the structured error value is kept here). -/
def DriverTypeArg.from_str (s : String) : Except NewProjectArgsError DriverTypeArg :=
  if rustToLowercase s = "kmdf" then .ok .Kmdf
  else if rustToLowercase s = "umdf" then .ok .Umdf
  else if rustToLowercase s = "wdm" then .ok .Wdm
  else .error (.InvalidDriverTypeError s)

/-- `ProfileArg` (`cli/args.rs`). -/
inductive ProfileArg where
  | Debug
  | Release
  deriving DecidableEq, Repr

/-- `ProfileArg::from_str` (`cli/args.rs` lines 117-123). -/
def ProfileArg.from_str (s : String) : Except String ProfileArg :=
  if rustToLowercase s = "debug" then .ok .Debug
  else if rustToLowercase s = "release" then .ok .Release
  else .error ("'" ++ s ++ "' is not a valid profile")

/-- `TargetArchArg` (`cli/args.rs`). -/
inductive TargetArchArg where
  | X64
  | Arm64
  deriving DecidableEq, Repr

/-- `TargetArchArg::from_str` (`cli/args.rs` lines 145-151). -/
def TargetArchArg.from_str (s : String) : Except String TargetArchArg :=
  if rustToLowercase s = "x64" then .ok .X64
  else if rustToLowercase s = "arm64" then .ok .Arm64
  else .error ("'" ++ s ++ "' is not a valid target architecture")

/-! ## Driver-type selection of the `new` subcommand (`cli.rs`) -/

/-- The `driver_types` table and `selected` filter of the `New` branch of
`Cli::run` (`cli.rs` lines 130-139). -/
def newSelectedDriverTypes (kmdf umdf wdm : Bool) : List String :=
  ([(kmdf, "kmdf"), (umdf, "umdf"), (wdm, "wdm")]).filterMap
    (fun p => if p.1 then some p.2 else none)

/-- The driver-type selection of the `New` branch of `Cli::run` (`cli.rs`
lines 130-145): an error when the number of set flags is not exactly one,
otherwise the selected flag's name (the string then passed to
`NewAction::new`). -/
def runNewDriverTypeSelection (kmdf umdf wdm : Bool) : Except String String :=
  let selected := newSelectedDriverTypes kmdf umdf wdm
  if h : selected.length = 1 then
    .ok (selected.get ⟨0, by omega⟩)
  else
    .error "Please select exactly one driver type: kmdf, umdf, or wdm"

/-! ## Build-and-package orchestration

The orchestrator, providers and packaging pipeline are described by the
specification (sections 3, 4.2-4.4); their implementation files are not
among the embedded sources, so the definitions below are modelled from the
spec, with stage-success flags standing for the opaque external tools. -/

/-- Modelled from the spec: the three recognized driver kinds
(`PackageInfo`, glossary). -/
inductive DriverKind where
  | Kmdf
  | Umdf
  | Wdm
  deriving DecidableEq, Repr

/-- Modelled from the spec: the three-way outcome of
`package_driver_config` (section 4.1) — absent (not a driver), parsed, or
present-but-malformed. -/
inductive DriverConfigOutcome where
  | Absent
  | Parsed (kind : DriverKind)
  | Malformed (err : String)
  deriving DecidableEq, Repr

/-- Modelled from the spec: the pipeline stage in progress when a failure
occurs (sections 4.2, 4.3). -/
inductive PipelineStage where
  | Classification
  | Build
  | Stamp
  | Catalog
  | Sign
  | Package
  deriving DecidableEq, Repr

/-- Modelled from the spec: `PackageOutcome` (section 3) — produced exactly
once per discovered member. -/
inductive PackageOutcome where
  | Skipped (reason : String)
  | Succeeded
  | Failed (stage : PipelineStage) (err : String)
  deriving DecidableEq, Repr

/-- File contents as a byte sequence. -/
abbrev Bytes := List Nat

/-- Modelled from the spec: the filesystem seen through the filesystem
provider — a partial map from paths to file contents. -/
abbrev FileSystem := String → Option Bytes

/-- Pointwise update of a filesystem: path `dst` now holds bytes `b`. -/
def fsUpdate (fs : FileSystem) (dst : String) (b : Bytes) : FileSystem :=
  fun p => if p = dst then some b else fs p

/-- Modelled from the spec: the filesystem provider's `copy` (sections 4.1
and 4.3.5) — a plain byte-for-byte duplication, the destination receiving
exactly the source's bytes, failing with the offending path when the
source does not exist. -/
def copyFile (fs : FileSystem) (src dst : String) : Except String FileSystem :=
  match fs src with
  | none => .error src
  | some b => .ok (fsUpdate fs dst b)

/-- Modelled from the spec: one entry of the `PackagingArtifactSet`
(section 3) — a source path and a destination path. -/
structure Artifact where
  src : String
  dst : String
  deriving DecidableEq, Repr

/-- Copy every artifact of a set, in order, destructively overwriting
destinations (section 4.3.5). -/
def copyArtifacts (fs : FileSystem) (arts : List Artifact) : Except String FileSystem :=
  arts.foldlM (fun f a => copyFile f a.src a.dst) fs

/-- Modelled from the spec: the compiled binary's extension per driver
kind — `.sys` for the kernel-mode kinds, `.dll` for user-mode (section 3,
`PackagingArtifactSet`). -/
def binaryExtension : DriverKind → String
  | .Kmdf => ".sys"
  | .Wdm => ".sys"
  | .Umdf => ".dll"

/-- Modelled from the spec: the package output directory
`<profile-dir>/<package-name>_package` (section 4.3.5). -/
def packageDir (profileDir pkgName : String) : String :=
  profileDir ++ "/" ++ pkgName ++ "_package"

/-- Modelled from the spec: the `PackagingArtifactSet` of a driver package
(section 3): compiled binary, `.pdb`, `.map` (produced under `deps/`, per
the build-command tests), stamped `.inf`, generated `.cat`, and the
signing certificate `.cer`, each copied into the package directory. -/
def packagingArtifactSet (profileDir pkgName certName : String)
    (kind : DriverKind) : List Artifact :=
  let dir := packageDir profileDir pkgName
  [ ⟨profileDir ++ "/" ++ pkgName ++ binaryExtension kind,
      dir ++ "/" ++ pkgName ++ binaryExtension kind⟩,
    ⟨profileDir ++ "/" ++ pkgName ++ ".pdb", dir ++ "/" ++ pkgName ++ ".pdb"⟩,
    ⟨profileDir ++ "/deps/" ++ pkgName ++ ".map", dir ++ "/" ++ pkgName ++ ".map"⟩,
    ⟨profileDir ++ "/" ++ pkgName ++ ".inf", dir ++ "/" ++ pkgName ++ ".inf"⟩,
    ⟨profileDir ++ "/" ++ pkgName ++ ".cat", dir ++ "/" ++ pkgName ++ ".cat"⟩,
    ⟨profileDir ++ "/" ++ certName ++ ".cer", dir ++ "/" ++ certName ++ ".cer"⟩ ]

/-- Modelled from the spec: one workspace member as the orchestrator sees
it — its name, its driver-kit configuration outcome, and the success of
each opaque external-tool stage of its pipeline (sections 4.2, 4.3). -/
structure MemberSpec where
  name : String
  config : DriverConfigOutcome
  buildOk : Bool
  stampOk : Bool
  catalogOk : Bool
  signOk : Bool
  deriving DecidableEq, Repr

/-- Modelled from the spec: the per-driver packaging state machine
(section 4.3) — stages strictly in order, each entered only if the
previous succeeded, ending `Succeeded` only after the artifact set is
copied; any stage failure is terminal for the member. -/
def runPackagingStages (m : MemberSpec) (fs : FileSystem)
    (arts : List Artifact) : PackageOutcome × FileSystem :=
  if ¬ m.buildOk then (.Failed .Build ("build failed for " ++ m.name), fs)
  else if ¬ m.stampOk then (.Failed .Stamp ("inf stamping failed for " ++ m.name), fs)
  else if ¬ m.catalogOk then (.Failed .Catalog ("catalog generation failed for " ++ m.name), fs)
  else if ¬ m.signOk then (.Failed .Sign ("signing failed for " ++ m.name), fs)
  else
    match copyArtifacts fs arts with
    | .error p => (.Failed .Package ("failed to copy " ++ p), fs)
    | .ok fsNew => (.Succeeded, fsNew)

/-- Modelled from the spec: classification and processing of one member
(section 4.2): an absent driver-kit section yields a skip record naming
the package and the compiler is never invoked; a malformed section yields
an immediate classification failure; a parsed configuration invokes the
compiler and the packaging pipeline. The skip message is the one asserted
by the build-command test. Returns the member's outcome, the updated
filesystem, and whether the compiler was invoked. -/
def processMember (profileDir certName : String) (m : MemberSpec)
    (fs : FileSystem) : PackageOutcome × FileSystem × Bool :=
  match m.config with
  | .Absent =>
    (.Skipped ("No package.metadata.wdk section found. Skipping driver package workflow for package: "
        ++ m.name), fs, false)
  | .Malformed e => (.Failed .Classification e, fs, false)
  | .Parsed kind =>
    let r := runPackagingStages m fs (packagingArtifactSet profileDir m.name certName kind)
    (r.1, r.2, true)

/-- Modelled from the spec: sequential processing of all workspace members
in discovery order, one outcome per member, a member's failure never
preventing the processing of subsequent members (sections 4.2-4.4). -/
def processWorkspace (profileDir certName : String) (members : List MemberSpec)
    (fs : FileSystem) : List (String × PackageOutcome) × FileSystem :=
  match members with
  | [] => ([], fs)
  | m :: rest =>
    let r := processMember profileDir certName m fs
    let rr := processWorkspace profileDir certName rest r.2.1
    ((m.name, r.1) :: rr.1, rr.2)

/-- Whether an outcome is a failure. -/
def PackageOutcome.isFailed : PackageOutcome → Bool
  | .Failed _ _ => true
  | _ => false

/-- The names of the members whose outcome is `Failed`. -/
def failedPackageNames (outcomes : List (String × PackageOutcome)) : List String :=
  (outcomes.filter (fun p => p.2.isFailed)).map Prod.fst

/-- Modelled from the spec: the synthesized aggregate error (sections 4.4,
7) — present exactly when some member failed, naming the working directory
and every failed package. -/
def aggregateError (workingDir : String)
    (outcomes : List (String × PackageOutcome)) : Option (String × List String) :=
  if failedPackageNames outcomes = [] then none
  else some (workingDir, failedPackageNames outcomes)

/-- Modelled from the spec: the process exit code — 0 exactly when the
aggregate outcome has zero failures (sections 4.4, 6). -/
def buildExitCode (outcomes : List (String × PackageOutcome)) : Nat :=
  if failedPackageNames outcomes = [] then 0 else 1

/-- Concrete fixture: a KMDF driver member whose every stage succeeds. -/
def sampleMember : MemberSpec :=
  ⟨"driver", .Parsed .Kmdf, true, true, true, true⟩

/-- Concrete fixture: the artifact set of the fixture member under the
debug profile. -/
def sampleArts : List Artifact :=
  packagingArtifactSet "target/debug" "driver" "WDRLocalTestCert" .Kmdf

/-- Concrete fixture: a filesystem holding the six pre-copy artifact
sources of the fixture member. -/
def sampleFs : FileSystem := fun p =>
  if p = "target/debug/driver.sys" then some [0]
  else if p = "target/debug/driver.pdb" then some [1]
  else if p = "target/debug/deps/driver.map" then some [2]
  else if p = "target/debug/driver.inf" then some [3]
  else if p = "target/debug/driver.cat" then some [4]
  else if p = "target/debug/WDRLocalTestCert.cer" then some [5]
  else none

end CargoWdk

namespace CargoWdk

/-- C1: with no explicit architecture, resolution invokes the host-triple
query and maps exactly the two recognized trimmed triples
(`x86_64-pc-windows-msvc → Amd64`, `aarch64-pc-windows-msvc → Arm64`,
anything else an error); with an explicit architecture the query is never
invoked and the architecture is used as-is. -/
theorem default_arch_resolution_correct :
    (∀ (stdout : String), rustTrim stdout = "x86_64-pc-windows-msvc" →
      resolveTargetArch none (.ok stdout)
        = (.ok (TargetArch.Default CpuArchitecture.Amd64), true)) ∧
    (∀ (stdout : String), rustTrim stdout = "aarch64-pc-windows-msvc" →
      resolveTargetArch none (.ok stdout)
        = (.ok (TargetArch.Default CpuArchitecture.Arm64), true)) ∧
    (∀ (stdout : String), rustTrim stdout ≠ "x86_64-pc-windows-msvc" →
      rustTrim stdout ≠ "aarch64-pc-windows-msvc" →
      ∃ msg, resolveTargetArch none (.ok stdout) = (.error msg, true)) ∧
    (∀ (arch : CpuArchitecture) (r : RustcRunResult),
      resolveTargetArch (some arch) r = (.ok (TargetArch.Selected arch), false)) := by
  refine ⟨?_, ?_, ?_, ?_⟩
  · intro stdout htrim
    simp [resolveTargetArch, detect_default_target_arch_using_rustc, htrim, Except.map]
  · intro stdout htrim
    simp [resolveTargetArch, detect_default_target_arch_using_rustc, htrim, Except.map]
  · intro stdout h1 h2
    refine ⟨"Unsupported default target: " ++ stdout
      ++ ". Only x86_64-pc-windows-msvc and aarch64-pc-windows-msvc are supported.\n"
      ++ " If you're on Windows, consider using the --target-arch option to specify a "
      ++ "supported architecture.", ?_⟩
    simp [resolveTargetArch, detect_default_target_arch_using_rustc, h1, h2, Except.map]
  · intro arch r
    rfl

/-- The trimmed string's characters form a contiguous segment of the
original string's characters. -/
theorem rustTrim_data_segment (s : String) : (rustTrim s).data <:+: s.data := by
  show ((s.data.dropWhile Char.isWhitespace).reverse.dropWhile Char.isWhitespace).reverse
      <:+: s.data
  have h1 : ((s.data.dropWhile Char.isWhitespace).reverse.dropWhile
      Char.isWhitespace).reverse <+: s.data.dropWhile Char.isWhitespace :=
    List.rdropWhile_prefix _ _
  exact h1.isInfix.trans (List.dropWhile_suffix _).isInfix

/-- C2: `detect_default_target_arch_using_rustc` returns an error whenever
the `rustc` query fails, and whenever the trimmed host triple is neither
`x86_64-pc-windows-msvc` nor `aarch64-pc-windows-msvc`; in the
unsupported-triple case the error message names the reported triple and
suggests explicit architecture selection via `--target-arch`. -/
theorem detect_default_arch_error_cases :
    (∀ e : CommandError, ∃ msg,
      detect_default_target_arch_using_rustc (.error e) = .error msg) ∧
    (∀ stdout : String, rustTrim stdout ≠ "x86_64-pc-windows-msvc" →
      rustTrim stdout ≠ "aarch64-pc-windows-msvc" →
      ∃ msg, detect_default_target_arch_using_rustc (.ok stdout) = .error msg ∧
        strContains msg (rustTrim stdout) ∧ strContains msg "--target-arch") := by
  constructor
  · intro e
    exact ⟨_, rfl⟩
  · intro stdout h1 h2
    refine ⟨"Unsupported default target: " ++ stdout
      ++ ". Only x86_64-pc-windows-msvc and aarch64-pc-windows-msvc are supported.\n"
      ++ " If you're on Windows, consider using the --target-arch option to specify a "
      ++ "supported architecture.", ?_, ?_, ?_⟩
    · simp [detect_default_target_arch_using_rustc, h1, h2]
    · refine strContains_append_right _ ?_
      refine strContains_append_right _ ?_
      refine strContains_append_right _ ?_
      exact strContains_append_left _ (strContains_of_data_seg (rustTrim_data_segment stdout))
    · refine strContains_append_right _ ?_
      refine strContains_append_left _ ?_
      decide

/-- Witness for C2 at concrete inputs: the command-failure case of the unit
tests and the `i686-pc-windows-msvc` unsupported triple. -/
theorem detect_default_arch_error_cases_witness :
    (∃ msg, detect_default_target_arch_using_rustc
      (.error ⟨"rustc", ["--print", "host-tuple"], "command error"⟩) = .error msg) ∧
    (∃ msg, detect_default_target_arch_using_rustc (.ok "i686-pc-windows-msvc")
        = .error msg ∧
      strContains msg (rustTrim "i686-pc-windows-msvc") ∧
      strContains msg "--target-arch") :=
  ⟨detect_default_arch_error_cases.1 _,
   detect_default_arch_error_cases.2 "i686-pc-windows-msvc" (by decide) (by decide)⟩

/-- Witness for C1 at concrete inputs. -/
theorem default_arch_resolution_correct_witness :
    resolveTargetArch none (.ok "x86_64-pc-windows-msvc\n")
      = (.ok (TargetArch.Default CpuArchitecture.Amd64), true) ∧
    resolveTargetArch (some CpuArchitecture.Arm64) (.ok "whatever")
      = (.ok (TargetArch.Selected CpuArchitecture.Arm64), false) := by
  constructor
  · exact default_arch_resolution_correct.1 "x86_64-pc-windows-msvc\n" (by decide)
  · exact default_arch_resolution_correct.2.2.2 CpuArchitecture.Arm64 (.ok "whatever")

theorem fsUpdate_same (fs : FileSystem) (dst : String) (b : Bytes) :
    fsUpdate fs dst b dst = some b := by
  simp [fsUpdate]

theorem fsUpdate_other (fs : FileSystem) (dst : String) (b : Bytes)
    (p : String) (h : p ≠ dst) : fsUpdate fs dst b p = fs p := by
  simp [fsUpdate, h]

/-- Copying an artifact set changes no path outside the set's
destinations. -/
theorem copyArtifacts_unchanged (arts : List Artifact) (fs fs' : FileSystem)
    (h : copyArtifacts fs arts = .ok fs') :
    ∀ p, p ∉ arts.map Artifact.dst → fs' p = fs p := by
  induction arts generalizing fs with
  | nil =>
    simp only [copyArtifacts, List.foldlM] at h
    cases h
    intro p _
    rfl
  | cons a rest ih =>
    simp only [copyArtifacts, List.foldlM_cons] at h
    rcases hsrc : fs a.src with _ | b
    · simp [copyFile, hsrc, bind, Except.bind] at h
    · simp only [copyFile, hsrc, bind, Except.bind] at h
      intro p hp
      simp only [List.map_cons, List.mem_cons, not_or] at hp
      have := ih _ h p (by simpa using hp.2)
      rw [this, fsUpdate_other _ _ _ _ hp.1]

/-- If every artifact of a set is copied successfully, every destination
holds exactly the bytes of its pre-copy source, provided the destinations
are pairwise distinct and no destination is also a source. -/
theorem copyArtifacts_spec (arts : List Artifact) (fs fs' : FileSystem)
    (hnodup : (arts.map Artifact.dst).Nodup)
    (hdisj : ∀ a ∈ arts, ∀ b ∈ arts, a.dst ≠ b.src)
    (h : copyArtifacts fs arts = .ok fs') :
    ∀ a ∈ arts, fs' a.dst = fs a.src ∧ (fs a.src).isSome = true := by
  induction arts generalizing fs with
  | nil =>
    intro a ha
    simp at ha
  | cons a rest ih =>
    simp only [copyArtifacts, List.foldlM_cons] at h
    rcases hsrc : fs a.src with _ | b
    · simp [copyFile, hsrc, bind, Except.bind] at h
    · simp only [copyFile, hsrc, bind, Except.bind] at h
      intro x hx
      simp only [List.map_cons, List.nodup_cons] at hnodup
      rcases List.mem_cons.mp hx with hxa | hxr
      · subst hxa
        refine ⟨?_, by rw [hsrc]; rfl⟩
        have hx_unchanged := copyArtifacts_unchanged rest _ fs' h x.dst hnodup.1
        rw [hx_unchanged, fsUpdate_same, hsrc]
      · have hne : a.dst ≠ x.src :=
          hdisj a (List.mem_cons_self a rest) x (List.mem_cons_of_mem a hxr)
        have hx2 := ih _ hnodup.2
          (fun u hu v hv =>
            hdisj u (List.mem_cons_of_mem a hu) v (List.mem_cons_of_mem a hv))
          h x hxr
        rwa [fsUpdate_other _ _ _ _ (fun hc => hne hc.symm)] at hx2

/-- Re-running the artifact copies from a filesystem that agrees with the
original on every source yields identical destination contents and leaves
everything else as it was. -/
theorem copyArtifacts_congr (arts : List Artifact) (fs g fs' : FileSystem)
    (hsrc : ∀ a ∈ arts, g a.src = fs a.src)
    (h : copyArtifacts fs arts = .ok fs') :
    ∃ g', copyArtifacts g arts = .ok g' ∧
      (∀ p, p ∈ arts.map Artifact.dst → g' p = fs' p) ∧
      (∀ p, p ∉ arts.map Artifact.dst → g' p = g p) := by
  induction arts generalizing fs g with
  | nil =>
    simp only [copyArtifacts, List.foldlM] at h
    cases h
    exact ⟨g, rfl, by simp, fun p _ => rfl⟩
  | cons a rest ih =>
    simp only [copyArtifacts, List.foldlM_cons] at h
    rcases hs : fs a.src with _ | b
    · simp [copyFile, hs, bind, Except.bind] at h
    · simp only [copyFile, hs, bind, Except.bind] at h
      have hg : g a.src = some b := by rw [hsrc a (List.mem_cons_self a rest), hs]
      have hsrc' : ∀ x ∈ rest,
          fsUpdate g a.dst b x.src = fsUpdate fs a.dst b x.src := by
        intro x hx
        by_cases hxd : x.src = a.dst
        · simp [fsUpdate, hxd]
        · rw [fsUpdate_other _ _ _ _ hxd, fsUpdate_other _ _ _ _ hxd]
          exact hsrc x (List.mem_cons_of_mem a hx)
      obtain ⟨g', hg', hdsts, hrest⟩ := ih _ _ hsrc' h
      refine ⟨g', ?_, ?_, ?_⟩
      · simp only [copyArtifacts, List.foldlM_cons, copyFile, hg, bind, Except.bind]
        exact hg'
      · intro p hp
        rw [List.map_cons] at hp
        rcases List.mem_cons.mp hp with hpa | hpr
        · by_cases hprest : p ∈ rest.map Artifact.dst
          · exact hdsts p hprest
          · rw [hrest p hprest,
              copyArtifacts_unchanged rest _ fs' h p hprest]
            subst hpa
            rw [fsUpdate_same, fsUpdate_same]
        · exact hdsts p hpr
      · intro p hp
        simp only [List.map_cons, List.mem_cons, not_or] at hp
        rw [hrest p (by simpa using hp.2), fsUpdate_other _ _ _ _ hp.1]

/-- Lowercasing a character twice is the same as lowercasing once. -/
theorem char_toLower_idem (c : Char) :
    Char.toLower (Char.toLower c) = Char.toLower c := by
  unfold Char.toLower
  by_cases h : c.toNat ≥ 65 ∧ c.toNat ≤ 90
  · rw [if_pos h]
    have hv : (c.toNat + 32).isValidChar := Or.inl (by omega)
    have ht : (Char.ofNat (c.toNat + 32)).toNat = c.toNat + 32 := by
      unfold Char.ofNat Char.ofNatAux
      rw [dif_pos hv]
      rfl
    rw [ht, if_neg (by omega)]
  · rw [if_neg h, if_neg h]

/-- Lowercasing a string twice is the same as lowercasing once. -/
theorem rustToLowercase_idem (s : String) :
    rustToLowercase (rustToLowercase s) = rustToLowercase s := by
  unfold rustToLowercase
  apply congrArg
  simp [List.map_map, Function.comp, char_toLower_idem]

/-- C10 counterexample: `ProfileArg::from_str` does not return the same
result on `"DEBUGX"` as on its lowercasing, because the error message
embeds the original string. -/
theorem args_case_insensitivity_counterexample :
    ProfileArg.from_str "DEBUGX" ≠ ProfileArg.from_str (rustToLowercase "DEBUGX") := by
  decide

/-- C10 (amended): acceptance by the three argument parsers is
case-insensitive: `Ok` results agree between a string and its lowercasing,
and a parse succeeds exactly when the lowercasing is one of the valid
names (`kmdf`/`umdf`/`wdm`, `debug`/`release`, `x64`/`arm64`); every other
string yields an `Err` embedding the original (not lowercased) string. -/
theorem args_parsing_case_insensitive (s : String) :
    (∀ p, ProfileArg.from_str s = .ok p ↔
      ProfileArg.from_str (rustToLowercase s) = .ok p) ∧
    (∀ a, TargetArchArg.from_str s = .ok a ↔
      TargetArchArg.from_str (rustToLowercase s) = .ok a) ∧
    (∀ d, DriverTypeArg.from_str s = .ok d ↔
      DriverTypeArg.from_str (rustToLowercase s) = .ok d) ∧
    ((ProfileArg.from_str s).isOk = true ↔
      (rustToLowercase s = "debug" ∨ rustToLowercase s = "release")) ∧
    ((TargetArchArg.from_str s).isOk = true ↔
      (rustToLowercase s = "x64" ∨ rustToLowercase s = "arm64")) ∧
    ((DriverTypeArg.from_str s).isOk = true ↔
      (rustToLowercase s = "kmdf" ∨ rustToLowercase s = "umdf" ∨
        rustToLowercase s = "wdm")) ∧
    ((ProfileArg.from_str s).isOk = false →
      ProfileArg.from_str s = .error ("'" ++ s ++ "' is not a valid profile")) ∧
    ((TargetArchArg.from_str s).isOk = false →
      TargetArchArg.from_str s
        = .error ("'" ++ s ++ "' is not a valid target architecture")) ∧
    ((DriverTypeArg.from_str s).isOk = false →
      DriverTypeArg.from_str s
        = .error (.InvalidDriverTypeError s)) := by
  have hidem := rustToLowercase_idem s
  unfold ProfileArg.from_str TargetArchArg.from_str DriverTypeArg.from_str
  rw [hidem]
  refine ⟨fun p => ?_, fun a => ?_, fun d => ?_, ?_, ?_, ?_, ?_, ?_, ?_⟩ <;>
    (repeat' split) <;> simp_all [Except.isOk, Except.toBool]

/-- Witness for C10's amended theorem at concrete inputs. -/
theorem args_parsing_case_insensitive_witness :
    (ProfileArg.from_str "DeBuG" = .ok ProfileArg.Debug ↔
      ProfileArg.from_str (rustToLowercase "DeBuG") = .ok ProfileArg.Debug) ∧
    TargetArchArg.from_str "BAD-ARCH"
      = .error ("'" ++ "BAD-ARCH" ++ "' is not a valid target architecture") :=
  ⟨(args_parsing_case_insensitive "DeBuG").1 ProfileArg.Debug,
   (args_parsing_case_insensitive "BAD-ARCH").2.2.2.2.2.2.2.1 (by decide)⟩

/-- C9: in the `New` branch of `Cli::run`, an error is returned (and no
`NewAction` constructed) exactly when the number of driver-type flags set
is not one; when exactly one flag is set, the driver type passed on is
that flag's name. -/
theorem new_driver_type_selection_correct :
    ∀ kmdf umdf wdm : Bool,
      (runNewDriverTypeSelection kmdf umdf wdm
          = .error "Please select exactly one driver type: kmdf, umdf, or wdm"
        ↔ (newSelectedDriverTypes kmdf umdf wdm).length ≠ 1) ∧
      (runNewDriverTypeSelection kmdf umdf wdm = .ok "kmdf"
        ↔ (kmdf, umdf, wdm) = (true, false, false)) ∧
      (runNewDriverTypeSelection kmdf umdf wdm = .ok "umdf"
        ↔ (kmdf, umdf, wdm) = (false, true, false)) ∧
      (runNewDriverTypeSelection kmdf umdf wdm = .ok "wdm"
        ↔ (kmdf, umdf, wdm) = (false, false, true)) := by
  decide

/-- C8: `ProjectNameArg::from_str` accepts exactly the non-empty strings
of alphanumeric, `-` or `_` characters that start with an alphabetic
character and are not reserved names; each violated condition (in the
code's check order) yields its error variant, and the function never
reaches the `expect` panic. -/
theorem project_name_from_str_correct (s : String) :
    (ProjectNameArg.from_str s = .ok s ↔
      (s.data ≠ [] ∧
        s.data.all (fun c => rustIsAlphanumeric c || c == '-' || c == '_') = true ∧
        s.data.head?.any rustIsAlphabetic = true ∧
        reservedProjectNames.contains s = false)) ∧
    (∀ msg, ProjectNameArg.from_str s ≠ .panicked msg) ∧
    (s.data = [] → ProjectNameArg.from_str s
      = .err (.InvalidDriverProjectNameError s .EmptyProjectNameError)) ∧
    (s.data ≠ [] →
      s.data.all (fun c => rustIsAlphanumeric c || c == '-' || c == '_') = false →
      ProjectNameArg.from_str s
        = .err (.InvalidDriverProjectNameError s .NonAlphanumericProjectNameError)) ∧
    (s.data ≠ [] →
      s.data.all (fun c => rustIsAlphanumeric c || c == '-' || c == '_') = true →
      s.data.head?.any rustIsAlphabetic = false →
      ProjectNameArg.from_str s
        = .err (.InvalidDriverProjectNameError s .InvalidStartCharacter)) ∧
    (s.data.all (fun c => rustIsAlphanumeric c || c == '-' || c == '_') = true →
      s.data.head?.any rustIsAlphabetic = true →
      reservedProjectNames.contains s = true →
      ProjectNameArg.from_str s
        = .err (.InvalidDriverProjectNameError s (.ReservedName s))) := by
  obtain ⟨l⟩ := s
  cases l with
  | nil => simp [ProjectNameArg.from_str]
  | cons c cs =>
    unfold ProjectNameArg.from_str
    by_cases hall : ((c :: cs).all fun ch => rustIsAlphanumeric ch || ch == '-' || ch == '_') = true
    · by_cases halpha : rustIsAlphabetic c = true
      · by_cases hres : reservedProjectNames.contains (String.mk (c :: cs)) = true
        · simp_all
          intro x hx h1 h2
          rcases hall.2 x hx with ((h | h) | h) <;> simp_all
        · simp_all
          intro x hx h1 h2
          rcases hall.2 x hx with ((h | h) | h) <;> simp_all
      · simp_all
        intro x hx h1 h2
        rcases hall.2 x hx with ((h | h) | h) <;> simp_all
    · simp_all

/-- Witness for C8 at a concrete accepted name and a concrete reserved
name. -/
theorem project_name_from_str_correct_witness :
    ProjectNameArg.from_str "my-driver" = .ok "my-driver" ∧
    ProjectNameArg.from_str "crate"
      = .err (.InvalidDriverProjectNameError "crate"
          (.ReservedName "crate")) :=
  ⟨((project_name_from_str_correct "my-driver").1).2
      ⟨by decide, by decide, by decide, by decide⟩,
   (project_name_from_str_correct "crate").2.2.2.2.2 (by decide) (by decide) (by decide)⟩

/-- A packaging run that ends `Succeeded` had every external-tool stage
succeed. -/
theorem runPackagingStages_flags (m : MemberSpec) (fs : FileSystem)
    (arts : List Artifact)
    (h : (runPackagingStages m fs arts).1 = .Succeeded) :
    m.buildOk = true ∧ m.stampOk = true ∧ m.catalogOk = true ∧ m.signOk = true := by
  by_cases h1 : m.buildOk = true <;> by_cases h2 : m.stampOk = true <;>
    by_cases h3 : m.catalogOk = true <;> by_cases h4 : m.signOk = true <;>
    simp_all [runPackagingStages]

/-- A packaging run that ends `Succeeded` performed the artifact copies,
and its final filesystem is the copies' result. -/
theorem runPackagingStages_copy (m : MemberSpec) (fs : FileSystem)
    (arts : List Artifact)
    (h : (runPackagingStages m fs arts).1 = .Succeeded) :
    copyArtifacts fs arts = .ok (runPackagingStages m fs arts).2 := by
  obtain ⟨h1, h2, h3, h4⟩ := runPackagingStages_flags m fs arts h
  have heq : runPackagingStages m fs arts
      = (match copyArtifacts fs arts with
          | .error p => (.Failed .Package ("failed to copy " ++ p), fs)
          | .ok fsNew => (.Succeeded, fsNew)) := by
    simp [runPackagingStages, h1, h2, h3, h4]
  rcases hcopy : copyArtifacts fs arts with e | fs1
  · rw [heq, hcopy] at h
    simp at h
  · rw [heq, hcopy]

/-- C3: a driver package reaching the terminal `Succeeded` state has every
artifact of its `PackagingArtifactSet` — binary, `.pdb`, `.map`, `.inf`,
`.cat`, `.cer` — present at its destination under
`<profile-dir>/<package-name>_package/` with bytes identical to its
pre-copy source, provided the set's destination paths are pairwise
distinct and distinct from its source paths. -/
theorem packaging_success_invariant (profileDir pkgName certName : String)
    (kind : DriverKind) (m : MemberSpec) (fs : FileSystem)
    (hnodup : ((packagingArtifactSet profileDir pkgName certName kind).map
      Artifact.dst).Nodup)
    (hdisj : ∀ a ∈ packagingArtifactSet profileDir pkgName certName kind,
      ∀ b ∈ packagingArtifactSet profileDir pkgName certName kind, a.dst ≠ b.src)
    (h : (runPackagingStages m fs
        (packagingArtifactSet profileDir pkgName certName kind)).1 = .Succeeded) :
    ∀ a ∈ packagingArtifactSet profileDir pkgName certName kind,
      (runPackagingStages m fs
          (packagingArtifactSet profileDir pkgName certName kind)).2 a.dst
        = fs a.src ∧
      ((runPackagingStages m fs
          (packagingArtifactSet profileDir pkgName certName kind)).2 a.dst).isSome
        = true := by
  have hcopy := runPackagingStages_copy _ _ _ h
  intro a ha
  have hs := copyArtifacts_spec _ _ _ hnodup hdisj hcopy a ha
  refine ⟨hs.1, ?_⟩
  rw [hs.1]
  exact hs.2

/-- Witness for C3 at the concrete fixture: the packaged `.map` and `.cer`
bytes equal their pre-copy sources. -/
theorem packaging_success_invariant_witness :
    (runPackagingStages sampleMember sampleFs sampleArts).2
        "target/debug/driver_package/driver.map"
      = sampleFs "target/debug/deps/driver.map" ∧
    (runPackagingStages sampleMember sampleFs sampleArts).2
        "target/debug/driver_package/WDRLocalTestCert.cer"
      = sampleFs "target/debug/WDRLocalTestCert.cer" := by
  have h := packaging_success_invariant "target/debug" "driver" "WDRLocalTestCert"
    .Kmdf sampleMember sampleFs (by decide) (by decide) (by decide)
  exact ⟨(h ⟨"target/debug/deps/driver.map",
      "target/debug/driver_package/driver.map"⟩ (by decide)).1,
    (h ⟨"target/debug/WDRLocalTestCert.cer",
      "target/debug/driver_package/WDRLocalTestCert.cer"⟩ (by decide)).1⟩

/-- C6: a successfully packaged driver has its compiled binary in the
package directory with extension `.sys` for the kernel-mode kinds (KMDF,
WDM) and `.dll` for the user-mode kind (UMDF), alongside the `.pdb`,
`.map`, `.inf`, `.cat` and `.cer` artifacts. -/
theorem packaged_binary_extension (profileDir pkgName certName : String)
    (kind : DriverKind) (m : MemberSpec) (fs : FileSystem)
    (hnodup : ((packagingArtifactSet profileDir pkgName certName kind).map
      Artifact.dst).Nodup)
    (hdisj : ∀ a ∈ packagingArtifactSet profileDir pkgName certName kind,
      ∀ b ∈ packagingArtifactSet profileDir pkgName certName kind, a.dst ≠ b.src)
    (h : (runPackagingStages m fs
        (packagingArtifactSet profileDir pkgName certName kind)).1 = .Succeeded) :
    ((kind = .Kmdf ∨ kind = .Wdm) →
      ((runPackagingStages m fs
          (packagingArtifactSet profileDir pkgName certName kind)).2
        (packageDir profileDir pkgName ++ "/" ++ pkgName ++ ".sys")).isSome = true) ∧
    (kind = .Umdf →
      ((runPackagingStages m fs
          (packagingArtifactSet profileDir pkgName certName kind)).2
        (packageDir profileDir pkgName ++ "/" ++ pkgName ++ ".dll")).isSome = true) ∧
    ((runPackagingStages m fs
        (packagingArtifactSet profileDir pkgName certName kind)).2
      (packageDir profileDir pkgName ++ "/" ++ pkgName ++ ".pdb")).isSome = true ∧
    ((runPackagingStages m fs
        (packagingArtifactSet profileDir pkgName certName kind)).2
      (packageDir profileDir pkgName ++ "/" ++ pkgName ++ ".map")).isSome = true ∧
    ((runPackagingStages m fs
        (packagingArtifactSet profileDir pkgName certName kind)).2
      (packageDir profileDir pkgName ++ "/" ++ pkgName ++ ".inf")).isSome = true ∧
    ((runPackagingStages m fs
        (packagingArtifactSet profileDir pkgName certName kind)).2
      (packageDir profileDir pkgName ++ "/" ++ pkgName ++ ".cat")).isSome = true ∧
    ((runPackagingStages m fs
        (packagingArtifactSet profileDir pkgName certName kind)).2
      (packageDir profileDir pkgName ++ "/" ++ certName ++ ".cer")).isSome = true := by
  have hcopy := runPackagingStages_copy _ _ _ h
  have hspec := copyArtifacts_spec _ _ _ hnodup hdisj hcopy
  have hone : ∀ a ∈ packagingArtifactSet profileDir pkgName certName kind,
      ((runPackagingStages m fs
        (packagingArtifactSet profileDir pkgName certName kind)).2 a.dst).isSome
        = true := by
    intro a ha
    rw [(hspec a ha).1]
    exact (hspec a ha).2
  refine ⟨?_, ?_, ?_, ?_, ?_, ?_, ?_⟩
  · rintro (hk | hk) <;> subst hk <;>
      exact hone ⟨profileDir ++ "/" ++ pkgName ++ ".sys",
          packageDir profileDir pkgName ++ "/" ++ pkgName ++ ".sys"⟩
        (by simp [packagingArtifactSet, binaryExtension])
  · rintro hk
    subst hk
    exact hone ⟨profileDir ++ "/" ++ pkgName ++ ".dll",
        packageDir profileDir pkgName ++ "/" ++ pkgName ++ ".dll"⟩
      (by simp [packagingArtifactSet, binaryExtension])
  · exact hone ⟨profileDir ++ "/" ++ pkgName ++ ".pdb",
        packageDir profileDir pkgName ++ "/" ++ pkgName ++ ".pdb"⟩
      (by simp [packagingArtifactSet])
  · exact hone ⟨profileDir ++ "/deps/" ++ pkgName ++ ".map",
        packageDir profileDir pkgName ++ "/" ++ pkgName ++ ".map"⟩
      (by simp [packagingArtifactSet])
  · exact hone ⟨profileDir ++ "/" ++ pkgName ++ ".inf",
        packageDir profileDir pkgName ++ "/" ++ pkgName ++ ".inf"⟩
      (by simp [packagingArtifactSet])
  · exact hone ⟨profileDir ++ "/" ++ pkgName ++ ".cat",
        packageDir profileDir pkgName ++ "/" ++ pkgName ++ ".cat"⟩
      (by simp [packagingArtifactSet])
  · exact hone ⟨profileDir ++ "/" ++ certName ++ ".cer",
        packageDir profileDir pkgName ++ "/" ++ certName ++ ".cer"⟩
      (by simp [packagingArtifactSet])

/-- Witness for C6 at the concrete KMDF fixture: the packaged binary is
the `.sys` file. -/
theorem packaged_binary_extension_witness :
    ((runPackagingStages sampleMember sampleFs sampleArts).2
      (packageDir "target/debug" "driver" ++ "/" ++ "driver" ++ ".sys")).isSome
      = true :=
  (packaged_binary_extension "target/debug" "driver" "WDRLocalTestCert" .Kmdf
    sampleMember sampleFs (by decide) (by decide) (by decide)).1 (Or.inl rfl)

/-- C7: rerunning the packaging pipeline over the filesystem left by a
successful run (an unchanged workspace: same member, same artifact set)
succeeds again and leaves every path — in particular the package
directory's contents — byte-identical to the first run's result, the
second run's copies being destructive overwrites; the artifact sources,
lying outside the destination set, are required distinct from the
destinations. -/
theorem build_twice_idempotent (m : MemberSpec) (fs : FileSystem)
    (arts : List Artifact)
    (hdisj : ∀ a ∈ arts, ∀ b ∈ arts, a.dst ≠ b.src)
    (h : (runPackagingStages m fs arts).1 = .Succeeded) :
    (runPackagingStages m (runPackagingStages m fs arts).2 arts).1 = .Succeeded ∧
    ∀ p, (runPackagingStages m (runPackagingStages m fs arts).2 arts).2 p
      = (runPackagingStages m fs arts).2 p := by
  obtain ⟨h1, h2, h3, h4⟩ := runPackagingStages_flags m fs arts h
  have hcopy := runPackagingStages_copy _ _ _ h
  have hagree : ∀ a ∈ arts, (runPackagingStages m fs arts).2 a.src = fs a.src := by
    intro a ha
    apply copyArtifacts_unchanged arts fs _ hcopy
    intro hmem
    rcases List.mem_map.mp hmem with ⟨b, hb, hbd⟩
    exact hdisj b hb a ha hbd
  obtain ⟨g', hg', hdsts, hrest⟩ :=
    copyArtifacts_congr arts fs (runPackagingStages m fs arts).2 _ hagree hcopy
  have hall : ∀ p, g' p = (runPackagingStages m fs arts).2 p := by
    intro p
    by_cases hp : p ∈ arts.map Artifact.dst
    · exact hdsts p hp
    · exact hrest p hp
  set fs1 := (runPackagingStages m fs arts).2 with hfs1
  have heq2 : runPackagingStages m fs1 arts = (.Succeeded, g') := by
    simp [runPackagingStages, h1, h2, h3, h4, hg']
  rw [heq2]
  exact ⟨rfl, hall⟩

/-- Witness for C7 at the concrete fixture: the second run succeeds and
the packaged `.pdb` is unchanged. -/
theorem build_twice_idempotent_witness :
    (runPackagingStages sampleMember
        (runPackagingStages sampleMember sampleFs sampleArts).2 sampleArts).1
      = .Succeeded ∧
    (runPackagingStages sampleMember
        (runPackagingStages sampleMember sampleFs sampleArts).2 sampleArts).2
        "target/debug/driver_package/driver.pdb"
      = (runPackagingStages sampleMember sampleFs sampleArts).2
        "target/debug/driver_package/driver.pdb" := by
  have h := build_twice_idempotent sampleMember sampleFs sampleArts
    (by decide) (by decide)
  exact ⟨h.1, h.2 "target/debug/driver_package/driver.pdb"⟩

/-- C4: a member whose manifest lacks the driver-kit section is `Skipped`
with a record naming the package and the compiler is never invoked for it
— absence is not an error; a classification failure arises exactly from a
present-but-malformed section. -/
theorem non_driver_member_skipped (profileDir certName : String)
    (m : MemberSpec) (fs : FileSystem) :
    (m.config = .Absent →
      (processMember profileDir certName m fs).1
        = .Skipped ("No package.metadata.wdk section found. Skipping driver package workflow for package: "
            ++ m.name) ∧
      strContains ("No package.metadata.wdk section found. Skipping driver package workflow for package: "
          ++ m.name) m.name ∧
      (processMember profileDir certName m fs).2.2 = false) ∧
    (∀ e, m.config = .Malformed e →
      (processMember profileDir certName m fs).1 = .Failed .Classification e ∧
      (processMember profileDir certName m fs).2.2 = false) ∧
    (∀ e, (processMember profileDir certName m fs).1 = .Failed .Classification e ↔
      m.config = .Malformed e) := by
  refine ⟨?_, ?_, ?_⟩
  · intro hm
    refine ⟨by simp [processMember, hm], ?_, by simp [processMember, hm]⟩
    exact strContains_append_left _ (strContains_self m.name)
  · intro e hm
    exact ⟨by simp [processMember, hm], by simp [processMember, hm]⟩
  · intro e
    rcases hm : m.config with _ | kind | e2
    · simp [processMember, hm]
    · simp only [processMember, hm]
      constructor
      · intro hfail
        exfalso
        revert hfail
        unfold runPackagingStages
        split
        · simp
        · split
          · simp
          · split
            · simp
            · split
              · simp
              · rcases copyArtifacts fs
                  (packagingArtifactSet profileDir m.name certName kind) with p | fsNew
                · simp
                · simp
      · intro hc
        simp at hc
    · simp [processMember, hm]

/-- Witness for C4 at a concrete non-driver member and a concrete
malformed member. -/
theorem non_driver_member_skipped_witness :
    (processMember "target/debug" "WDRLocalTestCert"
        ⟨"non_driver_crate", .Absent, true, true, true, true⟩ sampleFs).1
      = .Skipped "No package.metadata.wdk section found. Skipping driver package workflow for package: non_driver_crate" ∧
    (processMember "target/debug" "WDRLocalTestCert"
        ⟨"non_driver_crate", .Absent, true, true, true, true⟩ sampleFs).2.2 = false ∧
    (processMember "target/debug" "WDRLocalTestCert"
        ⟨"rust-project", .Malformed "Error Parsing WDK metadata from Cargo.toml",
          true, true, true, true⟩ sampleFs).1
      = .Failed .Classification "Error Parsing WDK metadata from Cargo.toml" := by
  have h1 := (non_driver_member_skipped "target/debug" "WDRLocalTestCert"
    ⟨"non_driver_crate", .Absent, true, true, true, true⟩ sampleFs).1 rfl
  have h2 := (non_driver_member_skipped "target/debug" "WDRLocalTestCert"
    ⟨"rust-project", .Malformed "Error Parsing WDK metadata from Cargo.toml",
      true, true, true, true⟩ sampleFs).2.1
    "Error Parsing WDK metadata from Cargo.toml" rfl
  exact ⟨h1.1, h1.2.2, h2.1⟩

/-- C5: the build exits 0 exactly when no member outcome is `Failed`;
every member receives exactly one outcome (siblings of failed members
still complete); the aggregate error, present exactly when some member
failed, names the working directory and exactly the failed packages. -/
theorem workspace_exit_code_aggregate (profileDir certName workingDir : String)
    (members : List MemberSpec) (fs : FileSystem) :
    (buildExitCode (processWorkspace profileDir certName members fs).1 = 0 ↔
      ∀ entry ∈ (processWorkspace profileDir certName members fs).1,
        entry.2.isFailed = false) ∧
    ((processWorkspace profileDir certName members fs).1.map Prod.fst
      = members.map MemberSpec.name) ∧
    (∀ n, n ∈ failedPackageNames (processWorkspace profileDir certName members fs).1 ↔
      ∃ entry ∈ (processWorkspace profileDir certName members fs).1,
        entry.1 = n ∧ entry.2.isFailed = true) ∧
    (failedPackageNames (processWorkspace profileDir certName members fs).1 ≠ [] →
      buildExitCode (processWorkspace profileDir certName members fs).1 ≠ 0 ∧
      aggregateError workingDir (processWorkspace profileDir certName members fs).1
        = some (workingDir,
            failedPackageNames (processWorkspace profileDir certName members fs).1)) := by
  have hkey : failedPackageNames (processWorkspace profileDir certName members fs).1 = [] ↔
      ∀ entry ∈ (processWorkspace profileDir certName members fs).1,
        entry.2.isFailed = false := by
    unfold failedPackageNames
    rw [List.map_eq_nil_iff, List.filter_eq_nil_iff]
    constructor
    · intro h entry he
      simpa using h entry he
    · intro h entry he
      simpa using h entry he
  refine ⟨?_, ?_, ?_, ?_⟩
  · unfold buildExitCode
    split
    · rename_i hnil
      simp only [true_iff]
      exact hkey.mp hnil
    · rename_i hnil
      exact iff_of_false (by simp) (fun hall => hnil (hkey.mpr hall))
  · clear hkey
    induction members generalizing fs with
    | nil => rfl
    | cons m rest ih =>
      simp only [processWorkspace, List.map_cons]
      rw [ih]
  · intro n
    simp only [failedPackageNames, List.mem_map, List.mem_filter]
    constructor
    · rintro ⟨entry, ⟨hmem, hfail⟩, hn⟩
      exact ⟨entry, hmem, hn, hfail⟩
    · rintro ⟨entry, hmem, hn, hfail⟩
      exact ⟨entry, ⟨hmem, hfail⟩, hn⟩
  · intro hne
    refine ⟨?_, ?_⟩
    · simp [buildExitCode, hne]
    · simp [aggregateError, hne]

/-- Witness for C5 at a concrete two-member workspace: one malformed
member and one non-driver member — the failed member is named, the
skipped sibling still completes, and the exit code is nonzero. -/
theorem workspace_exit_code_aggregate_witness :
    (processWorkspace "target/debug" "WDRLocalTestCert"
        [⟨"rust-project", .Malformed "Error Parsing WDK metadata from Cargo.toml",
            true, true, true, true⟩,
          ⟨"non_driver_crate", .Absent, true, true, true, true⟩] sampleFs).1.map
        Prod.fst
      = ["rust-project", "non_driver_crate"] ∧
    buildExitCode (processWorkspace "target/debug" "WDRLocalTestCert"
        [⟨"rust-project", .Malformed "Error Parsing WDK metadata from Cargo.toml",
            true, true, true, true⟩,
          ⟨"non_driver_crate", .Absent, true, true, true, true⟩] sampleFs).1 ≠ 0 ∧
    aggregateError "tests/emulated-workspace"
        (processWorkspace "target/debug" "WDRLocalTestCert"
          [⟨"rust-project", .Malformed "Error Parsing WDK metadata from Cargo.toml",
              true, true, true, true⟩,
            ⟨"non_driver_crate", .Absent, true, true, true, true⟩] sampleFs).1
      = some ("tests/emulated-workspace",
          failedPackageNames (processWorkspace "target/debug" "WDRLocalTestCert"
            [⟨"rust-project", .Malformed "Error Parsing WDK metadata from Cargo.toml",
                true, true, true, true⟩,
              ⟨"non_driver_crate", .Absent, true, true, true, true⟩] sampleFs).1) := by
  have h := workspace_exit_code_aggregate "target/debug" "WDRLocalTestCert"
    "tests/emulated-workspace"
    [⟨"rust-project", .Malformed "Error Parsing WDK metadata from Cargo.toml",
        true, true, true, true⟩,
      ⟨"non_driver_crate", .Absent, true, true, true, true⟩] sampleFs
  have hlast := h.2.2.2 (by decide)
  exact ⟨h.2.1, hlast.1, hlast.2⟩

end CargoWdk